import Mathlib

/-!
# Verification of the resilience and error-governance layer

Shallow embedding of the circuit breaker, error taxonomy, central error
handler (not-found handler and request-body sanitization), tiered rate
limiting, and audit-trail middleware of the repository, together with
proofs and refutations of the specification claims about them.

Machine integers (JS numbers used as counters and millisecond timestamps)
are modelled as `Nat`; where the source subtracts timestamps
(`Date.now() - lastFailureTime`) the subtraction is carried out in `Int`
so that the comparison is exactly the source's comparison.
-/

namespace SlavkoOS

/-! ## Circuit breaker (src CircuitBreaker class)

The breaker's mutable state and its transition methods `execute`,
`onSuccess`, `onFailure`, `shouldAttemptReset`, `getState` and `reset`
are embedded as pure functions on an explicit state record.  The wrapped
asynchronous operation is opaque to the breaker; only its outcome
(success or failure) matters, so `execute` takes the outcome as an
argument.  `Date.now()` at the time of the call is the explicit `now`
argument. -/

/-- Outcome of the wrapped operation passed to `execute`. -/
inductive Outcome
  | success
  | failure
deriving DecidableEq, Repr

/-- Visible result of one `execute` call: either the call was rejected
with a `CircuitBreakerError` without invoking the operation, or the
operation was invoked and its outcome observed (and re-raised on
failure). -/
inductive ExecResult
  | rejected
  | invoked (o : Outcome)
deriving DecidableEq, Repr

/-- `CircuitBreakerConfig` of the source (all durations in ms). -/
structure CircuitBreakerConfig where
  failureThreshold : Nat
  successThreshold : Nat
  timeout : Nat
  monitoringPeriod : Nat
deriving DecidableEq, Repr

/-- `CircuitBreakerState` of the source. -/
structure CircuitBreakerState where
  isOpen : Bool
  failureCount : Nat
  successCount : Nat
  lastFailureTime : Option Nat
  lastSuccessTime : Option Nat
deriving DecidableEq, Repr

/-- JavaScript `a || d` for an optional numeric config field: an absent
field or a falsy (zero) value yields the default. -/
def jsOr (a : Option Nat) (d : Nat) : Nat :=
  match a with
  | none => d
  | some 0 => d
  | some n => n

/-- The constructor's config defaulting:
`failureThreshold || 5`, `successThreshold || 2`, `timeout || 60000`,
`monitoringPeriod || 300000`. -/
def mkConfig (failureThreshold successThreshold timeout monitoringPeriod : Option Nat) :
    CircuitBreakerConfig :=
  { failureThreshold := jsOr failureThreshold 5
    successThreshold := jsOr successThreshold 2
    timeout := jsOr timeout 60000
    monitoringPeriod := jsOr monitoringPeriod 300000 }

/-- The config a breaker gets when constructed with no overrides. -/
def defaultConfig : CircuitBreakerConfig := mkConfig none none none none

/-- The state installed by the constructor (and re-installed by `reset`). -/
def initialState : CircuitBreakerState :=
  { isOpen := false
    failureCount := 0
    successCount := 0
    lastFailureTime := none
    lastSuccessTime := none }

/-- `getState()`: returns a fresh copy (`{ ...this.state }`) of the state. -/
def getState (s : CircuitBreakerState) : CircuitBreakerState :=
  { isOpen := s.isOpen
    failureCount := s.failureCount
    successCount := s.successCount
    lastFailureTime := s.lastFailureTime
    lastSuccessTime := s.lastSuccessTime }

/-- `shouldAttemptReset()`: the guard `if (!this.state.lastFailureTime)
return false` fires on every falsy value — on `null` (no failure
recorded) and also on the number `0` (a failure stamped at timestamp 0
freezes the breaker open forever); otherwise the result is
`Date.now() - lastFailureTime > timeout` (strictly greater). -/
def shouldAttemptReset (cfg : CircuitBreakerConfig) (s : CircuitBreakerState)
    (now : Nat) : Bool :=
  match s.lastFailureTime with
  | none => false
  | some 0 => false
  | some t => decide ((now : Int) - (t : Int) > (cfg.timeout : Int))

/-- `onSuccess()`: increment `successCount`, zero `failureCount`, stamp
`lastSuccessTime`; when the incremented count reaches `successThreshold`,
clear the open flag and zero `successCount`. -/
def onSuccess (cfg : CircuitBreakerConfig) (s : CircuitBreakerState)
    (now : Nat) : CircuitBreakerState :=
  let s1 : CircuitBreakerState :=
    { s with
      successCount := s.successCount + 1
      failureCount := 0
      lastSuccessTime := some now }
  if cfg.successThreshold ≤ s1.successCount then
    { s1 with isOpen := false, successCount := 0 }
  else
    s1

/-- `onFailure()`: increment `failureCount`, stamp `lastFailureTime`;
when the incremented count reaches `failureThreshold`, set the open flag.
Note that `successCount` is left untouched. -/
def onFailure (cfg : CircuitBreakerConfig) (s : CircuitBreakerState)
    (now : Nat) : CircuitBreakerState :=
  let s1 : CircuitBreakerState :=
    { s with
      failureCount := s.failureCount + 1
      lastFailureTime := some now }
  if cfg.failureThreshold ≤ s1.failureCount then
    { s1 with isOpen := true }
  else
    s1

/-- `execute(operation)`: when the open flag is set, either clear it and
zero `successCount` (if `shouldAttemptReset`) and fall through to the
attempt, or reject with a `CircuitBreakerError` leaving the state
untouched.  When an attempt is made, `onSuccess`/`onFailure` is applied
according to the operation's outcome. -/
def execute (cfg : CircuitBreakerConfig) (s : CircuitBreakerState)
    (now : Nat) (op : Outcome) : ExecResult × CircuitBreakerState :=
  if s.isOpen then
    if shouldAttemptReset cfg s now then
      let s1 : CircuitBreakerState := { s with isOpen := false, successCount := 0 }
      match op with
      | .success => (.invoked .success, onSuccess cfg s1 now)
      | .failure => (.invoked .failure, onFailure cfg s1 now)
    else
      (.rejected, s)
  else
    match op with
    | .success => (.invoked .success, onSuccess cfg s now)
    | .failure => (.invoked .failure, onFailure cfg s now)

/-- The state reached by a sequence of `execute` calls, all at the same
wall-clock instant `now`, starting from an arbitrary state. -/
def runFrom (cfg : CircuitBreakerConfig) (now : Nat)
    (s : CircuitBreakerState) (os : List Outcome) : CircuitBreakerState :=
  os.foldl (fun st o => (execute cfg st now o).2) s

/-- The state reached from a freshly constructed breaker. -/
def runBreaker (cfg : CircuitBreakerConfig) (now : Nat)
    (os : List Outcome) : CircuitBreakerState :=
  runFrom cfg now initialState os

/-- An event against a breaker: an `execute` call at some instant with
some operation outcome, or an administrative `reset()`. -/
inductive BreakerEvent
  | exec (now : Nat) (op : Outcome)
  | adminReset
deriving DecidableEq, Repr

/-- State transition of one event.  `reset()` re-installs the
constructor's state literal. -/
def applyEvent (cfg : CircuitBreakerConfig) (s : CircuitBreakerState) :
    BreakerEvent → CircuitBreakerState
  | .exec now op => (execute cfg s now op).2
  | .adminReset => initialState

/-- The state reached from a fresh breaker by a sequence of events. -/
def runEvents (cfg : CircuitBreakerConfig) (evs : List BreakerEvent) :
    CircuitBreakerState :=
  evs.foldl (applyEvent cfg) initialState

/-! ## Error taxonomy (src shared errors.ts)

Each concrete error class is a call to the `AppError` base constructor
with literal severity, status code and operationality arguments; the
classes are embedded as constructor functions producing a plain record.
The dynamic fields of `ErrorContext` (timestamps, request ids) play no
role in the claims and are omitted from the record. -/

/-- The `ErrorCode` enumeration (one representative per family is enough
for the claims, but the full closed set is kept). -/
inductive ErrorCode
  | VALIDATION_ERROR | INVALID_INPUT | MISSING_REQUIRED_FIELD
  | AUTHENTICATION_ERROR | INVALID_CREDENTIALS | TOKEN_EXPIRED | TOKEN_INVALID
  | AUTHORIZATION_ERROR | INSUFFICIENT_PERMISSIONS | FORBIDDEN
  | NOT_FOUND | RESOURCE_NOT_FOUND
  | CONFLICT_ERROR | DUPLICATE_ENTRY
  | RATE_LIMIT_EXCEEDED
  | INTERNAL_SERVER_ERROR | DATABASE_ERROR | EXTERNAL_SERVICE_ERROR | NETWORK_ERROR
  | SERVICE_UNAVAILABLE | CIRCUIT_BREAKER_OPEN
deriving DecidableEq, Repr

/-- The `ErrorSeverity` enumeration. -/
inductive ErrorSeverity
  | LOW | MEDIUM | HIGH | CRITICAL
deriving DecidableEq, Repr

/-- The fields of an `AppError` instance fixed at construction. -/
structure AppErrorData where
  message : String
  code : ErrorCode
  severity : ErrorSeverity
  statusCode : Nat
  isOperational : Bool
deriving DecidableEq, Repr

/-- `ValidationError`: `super(message, VALIDATION_ERROR, LOW, 400, context)`
(operationality left at the base default `true`). -/
def mkValidationError (message : String) : AppErrorData :=
  { message, code := .VALIDATION_ERROR, severity := .LOW, statusCode := 400,
    isOperational := true }

/-- `AuthenticationError`: code `AUTHENTICATION_ERROR`, HIGH, 401. -/
def mkAuthenticationError (message : String) : AppErrorData :=
  { message, code := .AUTHENTICATION_ERROR, severity := .HIGH, statusCode := 401,
    isOperational := true }

/-- `AuthorizationError`: code `AUTHORIZATION_ERROR`, HIGH, 403. -/
def mkAuthorizationError (message : String) : AppErrorData :=
  { message, code := .AUTHORIZATION_ERROR, severity := .HIGH, statusCode := 403,
    isOperational := true }

/-- `NotFoundError`: code `NOT_FOUND`, LOW, 404. -/
def mkNotFoundError (message : String) : AppErrorData :=
  { message, code := .NOT_FOUND, severity := .LOW, statusCode := 404,
    isOperational := true }

/-- `ConflictError`: code `CONFLICT_ERROR`, MEDIUM, 409. -/
def mkConflictError (message : String) : AppErrorData :=
  { message, code := .CONFLICT_ERROR, severity := .MEDIUM, statusCode := 409,
    isOperational := true }

/-- `RateLimitError`: code `RATE_LIMIT_EXCEEDED`, MEDIUM, 429. -/
def mkRateLimitError (message : String) : AppErrorData :=
  { message, code := .RATE_LIMIT_EXCEEDED, severity := .MEDIUM, statusCode := 429,
    isOperational := true }

/-- `DatabaseError`: code `DATABASE_ERROR`, CRITICAL, 500; takes an
`isOperational` parameter whose declared default is `false`. -/
def mkDatabaseError (message : String) (isOperational : Bool) : AppErrorData :=
  { message, code := .DATABASE_ERROR, severity := .CRITICAL, statusCode := 500,
    isOperational }

/-- `ExternalServiceError`: code `EXTERNAL_SERVICE_ERROR`, HIGH, 502. -/
def mkExternalServiceError (message : String) : AppErrorData :=
  { message, code := .EXTERNAL_SERVICE_ERROR, severity := .HIGH, statusCode := 502,
    isOperational := true }

/-- `CircuitBreakerError`: code `CIRCUIT_BREAKER_OPEN`, HIGH, 503. -/
def mkCircuitBreakerError (message : String) : AppErrorData :=
  { message, code := .CIRCUIT_BREAKER_OPEN, severity := .HIGH, statusCode := 503,
    isOperational := true }

/-- `InternalServerError`: code `INTERNAL_SERVER_ERROR`, CRITICAL, 500,
and the base `isOperational` argument is the literal `false`. -/
def mkInternalServerError (message : String) : AppErrorData :=
  { message, code := .INTERNAL_SERVER_ERROR, severity := .CRITICAL, statusCode := 500,
    isOperational := false }

/-- The spec's closed set of error kinds, one per error class. -/
inductive ErrorKind
  | validation | authentication | authorization | notFound | conflict
  | rateLimited | database | externalService | circuitOpen | internal
deriving DecidableEq, Repr

/-- Construction of an error of each kind with no explicit overrides:
the class constructor invoked with its own default message and all
optional arguments left at their declared defaults. -/
def constructDefault : ErrorKind → AppErrorData
  | .validation => mkValidationError "Validation failed"
  | .authentication => mkAuthenticationError "Authentication failed"
  | .authorization => mkAuthorizationError "Insufficient permissions"
  | .notFound => mkNotFoundError "Resource not found"
  | .conflict => mkConflictError "Resource conflict"
  | .rateLimited => mkRateLimitError "Rate limit exceeded"
  | .database => mkDatabaseError "Database operation failed" false
  | .externalService => mkExternalServiceError "External service unavailable"
  | .circuitOpen => mkCircuitBreakerError "Service temporarily unavailable"
  | .internal => mkInternalServerError "Internal server error"

/-! ## Central error handler: not-found handler (src errorHandler.ts) -/

/-- The request data the not-found handler reads. -/
structure NFRequest where
  method : String
  path : String
deriving DecidableEq, Repr

/-- An HTTP response carrying an error envelope: the status passed to
`res.status(...)` and the `AppError` whose `toJSON()` envelope is sent. -/
structure HandlerResponse where
  status : Nat
  body : AppErrorData
deriving DecidableEq, Repr

/-- `notFoundHandler`: builds a `ValidationError` whose message names the
route and responds `404` with that error's envelope. -/
def notFoundHandler (req : NFRequest) : HandlerResponse :=
  { status := 404
    body := mkValidationError
      ("Route " ++ req.method ++ " " ++ req.path ++ " not found") }

/-! ## Central error handler: request-body sanitization (src errorHandler.ts)

Two views of the same source function `sanitizeRequestBody`:

* a value view (`sanitizeRequestBody` on `JsonVal`) that computes the
  content of the returned sanitized copy, for the redaction claims; and
* a heap view (`sanitizeRequestBodyH`) in which objects live at
  addresses in an explicit store and the shallow spread copy
  `{ ...body }` allocates a fresh address, for the no-mutation claim.
-/

/-- A JSON-like request-body value (JS arrays play no part in the
claims and are omitted). -/
inductive JsonVal
  | str (s : String)
  | num (n : Int)
  | jbool (b : Bool)
  | jnull
  | undef
  | obj (fields : List (String × JsonVal))

/-- The source's `sensitiveFields` list. -/
def sensitiveFields : List String := ["password", "token", "secret", "apiKey", "api_key"]

/-- One iteration of the source's redaction loop, generic in the marker
value: `if (field in sanitized) sanitized[field] = REDACTED`. -/
def redactField {α : Type} (marker : α) (fields : List (String × α))
    (k : String) : List (String × α) :=
  if fields.any (fun p => p.1 == k) then
    fields.map (fun p => if p.1 == k then (p.1, marker) else p)
  else
    fields

/-- The whole redaction loop over `sensitiveFields`. -/
def redactTop {α : Type} (marker : α) (fields : List (String × α)) :
    List (String × α) :=
  sensitiveFields.foldl (redactField marker) fields

/-- `sanitizeRequestBody(body)`, value view: a falsy or non-object body
is returned unchanged (`!body || typeof body !== 'object'`); an object
is shallow-copied and its top-level sensitive fields overwritten with
the marker string. -/
def sanitizeRequestBody : JsonVal → JsonVal
  | .obj fields => .obj (redactTop (JsonVal.str "[REDACTED]") fields)
  | v => v

/-- Top-level field lookup on the value view. -/
def getField (v : JsonVal) (k : String) : Option JsonVal :=
  match v with
  | .obj fields => (fields.find? (fun p => p.1 == k)).map (fun p => p.2)
  | _ => none

/-- A heap value: a primitive, or a reference to an object in the store. -/
inductive HVal
  | str (s : String)
  | num (n : Int)
  | jbool (b : Bool)
  | jnull
  | undef
  | ref (a : Nat)
deriving DecidableEq, Repr

/-- The store of live objects; the address of an object is its index. -/
structure Heap where
  objs : List (List (String × HVal))
deriving DecidableEq, Repr

/-- `sanitizeRequestBody(body)`, heap view: a non-reference body is
returned unchanged with the store untouched; for an object reference,
`{ ...body }` allocates a fresh object whose fields are a shallow copy
of the body's, the loop overwrites the sensitive top-level fields of
that fresh object only, and a reference to it is returned. -/
def sanitizeRequestBodyH (h : Heap) (body : HVal) : Heap × HVal :=
  match body with
  | .ref a =>
    match h.objs[a]? with
    | some fields =>
        ({ objs := h.objs ++ [redactTop (HVal.str "[REDACTED]") fields] },
         .ref h.objs.length)
    | none => (h, .ref a)
  | v => (h, v)

/-! ## Tiered rate limiting (src security middleware)

The three `express-rate-limit` instances.  The limiter algorithm itself
is the library's and is not in src; it is modelled from the spec
(section 4.4): per-key counter, reset when the window has elapsed,
rejection when the count exceeds the limit, and a configured `skip`
predicate exempting a request from both counting and rejection.  The
window/limit/skip configurations below are the source's. -/

/-- One rate-limit rule: window length, request ceiling, and the
configured `skip` predicate on the request path (`express-rate-limit`
defaults `skip` to a predicate that is never true when the option is
not given). -/
structure RateLimitRule where
  windowMs : Nat
  maxRequests : Nat
  skip : String → Bool

/-- General API traffic: 15-minute window, 100 requests, health checks
skipped (`skip: (req) => req.path === '/health'`). -/
def apiRateLimit : RateLimitRule :=
  { windowMs := 15 * 60 * 1000
    maxRequests := 100
    skip := fun path => path == "/health" }

/-- Authentication endpoints: 15-minute window, 5 requests, no `skip`
option. -/
def authRateLimit : RateLimitRule :=
  { windowMs := 15 * 60 * 1000
    maxRequests := 5
    skip := fun _ => false }

/-- AI (expensive-operation) endpoints: 1-hour window, 10 requests, no
`skip` option. -/
def aiRateLimit : RateLimitRule :=
  { windowMs := 60 * 60 * 1000
    maxRequests := 10
    skip := fun _ => false }

/-- Per-key counter of a rule. -/
structure RateLimitCounter where
  windowStart : Nat
  count : Nat
deriving DecidableEq, Repr

/-- Modelled from the spec: one attempt against one rule for one key
(the `express-rate-limit` algorithm is not in src).  A skipped request
leaves the counter untouched and is allowed; otherwise the counter
resets to 1 with a fresh window start when `now - windowStart >=
windowDuration`, else increments, and the request is rejected when the
count exceeds `maxRequests`. -/
def rateLimitStep (rule : RateLimitRule) (path : String) (now : Nat)
    (ctr : Option RateLimitCounter) : Option RateLimitCounter × Bool :=
  if rule.skip path then
    (ctr, true)
  else
    let c : RateLimitCounter :=
      match ctr with
      | some c0 =>
          if rule.windowMs ≤ now - c0.windowStart then
            { windowStart := now, count := 1 }
          else
            { windowStart := c0.windowStart, count := c0.count + 1 }
      | none => { windowStart := now, count := 1 }
    (some c, ! (rule.maxRequests < c.count))

/-- A burst of requests from one key, all at the same instant, against
one rule; yields the final counter and whether the last request was
allowed. -/
def runRateLimit (rule : RateLimitRule) (now : Nat) (paths : List String) :
    Option RateLimitCounter × Bool :=
  paths.foldl (fun acc p => rateLimitStep rule p now acc.1) (none, true)

/-! ## Audit-trail middleware (src auditLogMiddleware + auditLog)

The middleware overrides `res.end`; every invocation of the overridden
`end` appends one `AuditRecord` built from the response's final status
code and the request.  Express finalizes a response by calling `end`
exactly once, whether the handler returned normally or threw (in the
latter case the central error handler sends the error response); the
request lifecycle below reflects that. -/

/-- The audit record emitted by `auditLog(action, userId, details, result)`. -/
structure AuditRecord where
  action : String
  userId : String
  method : String
  path : String
  ip : String
  userAgent : String
  statusCode : Nat
  result : String
deriving DecidableEq, Repr

/-- `res.statusCode >= 200 && res.statusCode < 400 ? 'success' : 'failure'`. -/
def auditOutcomeResult (statusCode : Nat) : String :=
  if 200 ≤ statusCode ∧ statusCode < 400 then "success" else "failure"

/-- `(req as any).user?.id || 'anonymous'`: an absent user, an absent
id, or a falsy (empty) id all yield the anonymous marker. -/
def auditUserId (user : Option String) : String :=
  match user with
  | some id => if id = "" then "anonymous" else id
  | none => "anonymous"

/-- How the audited handler finished: a normal response, or a thrown
error that the central error handler turned into an error response.
Either way the response carries a final status code. -/
inductive HandlerOutcome
  | ok (status : Nat)
  | threw (errStatus : Nat)
deriving DecidableEq, Repr

/-- The status code of the finalized response. -/
def finalStatusCode : HandlerOutcome → Nat
  | .ok s => s
  | .threw s => s

/-- The overridden `res.end`: append one audit record built from the
final status code, then delegate to the original `end`. -/
def auditOnEnd (action : String) (user : Option String)
    (method path ip userAgent : String) (statusCode : Nat)
    (emitted : List AuditRecord) : List AuditRecord :=
  emitted ++
    [{ action
       userId := auditUserId user
       method, path, ip, userAgent, statusCode
       result := auditOutcomeResult statusCode }]

/-- One audited request: the handler runs to its outcome and the
response is finalized by the single call of the overridden `end`,
yielding the list of audit records emitted for the call. -/
def auditLogMiddleware (action : String) (user : Option String)
    (method path ip userAgent : String) (outcome : HandlerOutcome) :
    List AuditRecord :=
  auditOnEnd action user method path ip userAgent (finalStatusCode outcome) []

/-! ### States used by the concrete circuit-breaker scenarios -/

/-- The state of a default-configured breaker after five consecutive
failed calls at instant 1: open, five failures on record,
`lastFailureTime` stamped with the truthy timestamp 1. -/
def c1OpenState : CircuitBreakerState :=
  runBreaker defaultConfig 1 (List.replicate 5 Outcome.failure)

/-- The same five failures at instant 0: open, but `lastFailureTime`
carries the falsy timestamp 0, on which the reset guard short-circuits
to false at every later instant. -/
def c1OpenStateZero : CircuitBreakerState :=
  runBreaker defaultConfig 0 (List.replicate 5 Outcome.failure)

/-- `c1OpenState` after a successful trial call at instant 60002
(`60002 - 1 > 60000`, past the timeout): the breaker is in its trial
(half-open) phase with one trial success on record. -/
def c2AfterTrialSuccess : CircuitBreakerState :=
  (execute defaultConfig c1OpenState 60002 Outcome.success).2

/-- `c2AfterTrialSuccess` after a failed call at instant 60003: the
state contradicting claim C2. -/
def c2FinalState : CircuitBreakerState :=
  (execute defaultConfig c2AfterTrialSuccess 60003 Outcome.failure).2

/-- A request body with a `password` field nested one level down, as a
login payload wrapped in a `user` object would have. -/
def c5NestedBody : JsonVal :=
  .obj [("user", .obj [("password", .str "hunter2")])]

/-! ## Helper lemmas about the circuit breaker -/

theorem runFrom_nil (cfg : CircuitBreakerConfig) (now : Nat)
    (s : CircuitBreakerState) : runFrom cfg now s [] = s := rfl

theorem runFrom_cons (cfg : CircuitBreakerConfig) (now : Nat)
    (s : CircuitBreakerState) (o : Outcome) (l : List Outcome) :
    runFrom cfg now s (o :: l) = runFrom cfg now ((execute cfg s now o).2) l := rfl

theorem runFrom_append (cfg : CircuitBreakerConfig) (now : Nat)
    (s : CircuitBreakerState) (l1 l2 : List Outcome) :
    runFrom cfg now s (l1 ++ l2) = runFrom cfg now (runFrom cfg now s l1) l2 := by
  simp [runFrom]

/-- With a failure stamped at the falsy timestamp 0, the reset guard
short-circuits to false at every instant. -/
theorem shouldAttemptReset_zero (cfg : CircuitBreakerConfig)
    (s : CircuitBreakerState) (now : Nat) (h : s.lastFailureTime = some 0) :
    shouldAttemptReset cfg s now = false := by
  simp [shouldAttemptReset, h]

/-- With a failure stamped at a truthy (nonzero) timestamp, the reset
guard is exactly the strict elapsed-time comparison. -/
theorem shouldAttemptReset_pos (cfg : CircuitBreakerConfig)
    (s : CircuitBreakerState) (now t : Nat) (h : s.lastFailureTime = some t)
    (ht : 1 ≤ t) :
    shouldAttemptReset cfg s now =
      decide ((cfg.timeout : Int) < (now : Int) - (t : Int)) := by
  rcases t with _ | n
  · omega
  · simp [shouldAttemptReset, h]

/-- An `execute` at the very instant of the last recorded failure is
always rejected: either the timestamp is the falsy 0, or
`now - now = 0` never exceeds the (nonnegative) timeout. -/
theorem execute_open_same_now (cfg : CircuitBreakerConfig)
    (s : CircuitBreakerState) (now : Nat) (op : Outcome)
    (h1 : s.isOpen = true) (h2 : s.lastFailureTime = some now) :
    execute cfg s now op = (ExecResult.rejected, s) := by
  have hsar : shouldAttemptReset cfg s now = false := by
    rcases now with _ | n
    · exact shouldAttemptReset_zero cfg s 0 h2
    · rw [shouldAttemptReset_pos cfg s (n + 1) (n + 1) h2 (by omega)]
      exact decide_eq_false (by omega)
  simp [execute, h1, hsar]

/-- Once open with the failure stamped at the current instant, the
breaker rejects every further call at that instant and its state is
frozen. -/
theorem runFrom_open_absorb (cfg : CircuitBreakerConfig) (now : Nat) :
    ∀ (l : List Outcome) (s : CircuitBreakerState),
      s.isOpen = true → s.lastFailureTime = some now →
      runFrom cfg now s l = s
  | [], _, _, _ => rfl
  | o :: rest, s, h1, h2 => by
      rw [runFrom_cons, execute_open_same_now cfg s now o h1 h2]
      exact runFrom_open_absorb cfg now rest s h1 h2

theorem onFailure_isOpen_of_threshold (cfg : CircuitBreakerConfig)
    (s : CircuitBreakerState) (now : Nat)
    (h : cfg.failureThreshold ≤ s.failureCount + 1) :
    (onFailure cfg s now).isOpen = true ∧
    (onFailure cfg s now).lastFailureTime = some now := by
  simp [onFailure, h]

theorem onFailure_below_threshold (cfg : CircuitBreakerConfig)
    (s : CircuitBreakerState) (now : Nat)
    (h : s.failureCount + 1 < cfg.failureThreshold) :
    (onFailure cfg s now).isOpen = s.isOpen ∧
    (onFailure cfg s now).failureCount = s.failureCount + 1 := by
  have hno : ¬ (cfg.failureThreshold ≤ s.failureCount + 1) := by omega
  simp [onFailure, hno]

/-- `onFailure` never touches the success counter. -/
theorem onFailure_successCount (cfg : CircuitBreakerConfig)
    (s : CircuitBreakerState) (now : Nat) :
    (onFailure cfg s now).successCount = s.successCount := by
  simp only [onFailure]
  split <;> rfl

/-- `onSuccess` leaves the open flag cleared whenever it was clear. -/
theorem onSuccess_isOpen_of_closed (cfg : CircuitBreakerConfig)
    (s : CircuitBreakerState) (now : Nat) (h : s.isOpen = false) :
    (onSuccess cfg s now).isOpen = false := by
  simp only [onSuccess]
  split
  · rfl
  · exact h

/-- `onSuccess` zeroes the failure counter. -/
theorem onSuccess_failureCount (cfg : CircuitBreakerConfig)
    (s : CircuitBreakerState) (now : Nat) :
    (onSuccess cfg s now).failureCount = 0 := by
  simp only [onSuccess]
  split <;> rfl

/-- With a positive success threshold, the success counter coming out of
`onSuccess` is always strictly below the threshold: the increment that
reaches the threshold is folded back to zero in the same update. -/
theorem onSuccess_successCount_lt (cfg : CircuitBreakerConfig)
    (hS : 0 < cfg.successThreshold) (s : CircuitBreakerState) (now : Nat) :
    (onSuccess cfg s now).successCount < cfg.successThreshold := by
  simp only [onSuccess]
  split
  · exact hS
  · next h => exact Nat.lt_of_not_le h

/-- A run of `k ≥ 1` failures from a non-open state whose carried
failure count will reach the threshold leaves the breaker open with the
failure stamped at the current instant. -/
theorem runFrom_failures_open (cfg : CircuitBreakerConfig) (now : Nat) :
    ∀ (k : Nat) (s : CircuitBreakerState), s.isOpen = false → 1 ≤ k →
      cfg.failureThreshold ≤ s.failureCount + k →
      (runFrom cfg now s (List.replicate k Outcome.failure)).isOpen = true ∧
      (runFrom cfg now s (List.replicate k Outcome.failure)).lastFailureTime = some now
  | 0, _, _, hk, _ => absurd hk (by omega)
  | k + 1, s, h0, _, hth => by
      rw [List.replicate_succ, runFrom_cons]
      have hexec : (execute cfg s now Outcome.failure).2 = onFailure cfg s now := by
        simp [execute, h0]
      rw [hexec]
      by_cases hcase : cfg.failureThreshold ≤ s.failureCount + 1
      · obtain ⟨ho, hl⟩ := onFailure_isOpen_of_threshold cfg s now hcase
        rw [runFrom_open_absorb cfg now _ _ ho hl]
        exact ⟨ho, hl⟩
      · obtain ⟨ho, hc⟩ := onFailure_below_threshold cfg s now (by omega)
        exact runFrom_failures_open cfg now k (onFailure cfg s now)
          (by rw [ho]; exact h0) (by omega) (by omega)

/-- A run of failures too short to reach the threshold keeps the breaker
non-open and just accumulates the failure count. -/
theorem runFrom_failures_closed (cfg : CircuitBreakerConfig) (now : Nat) :
    ∀ (k : Nat) (s : CircuitBreakerState), s.isOpen = false →
      s.failureCount + k < cfg.failureThreshold →
      (runFrom cfg now s (List.replicate k Outcome.failure)).isOpen = false ∧
      (runFrom cfg now s (List.replicate k Outcome.failure)).failureCount =
        s.failureCount + k
  | 0, s, h0, _ => ⟨h0, rfl⟩
  | k + 1, s, h0, hlt => by
      rw [List.replicate_succ, runFrom_cons]
      have hexec : (execute cfg s now Outcome.failure).2 = onFailure cfg s now := by
        simp [execute, h0]
      rw [hexec]
      obtain ⟨ho, hc⟩ := onFailure_below_threshold cfg s now (by omega)
      obtain ⟨ho2, hc2⟩ := runFrom_failures_closed cfg now k (onFailure cfg s now)
        (by rw [ho]; exact h0) (by omega)
      rw [hc] at hc2
      exact ⟨ho2, by omega⟩

/-- Structure of every state a fresh breaker can reach by calls at one
instant: while non-open, the failure count is below the threshold and
counts exactly the trailing run of failures of the history; once open,
the last failure is stamped at the current instant and the history
contains a run of `failureThreshold` consecutive failures. -/
theorem runBreaker_shape (cfg : CircuitBreakerConfig) (now : Nat)
    (hF : 1 ≤ cfg.failureThreshold) (os : List Outcome) :
    ((runBreaker cfg now os).isOpen = false →
      (runBreaker cfg now os).failureCount < cfg.failureThreshold ∧
      ∃ l1, os = l1 ++ List.replicate (runBreaker cfg now os).failureCount Outcome.failure)
  ∧ ((runBreaker cfg now os).isOpen = true →
      (runBreaker cfg now os).lastFailureTime = some now ∧
      ∃ l1 l2, os = l1 ++ List.replicate cfg.failureThreshold Outcome.failure ++ l2) := by
  induction os using List.reverseRecOn with
  | nil =>
      constructor
      · intro _
        exact ⟨hF, [], rfl⟩
      · intro h
        simp [runBreaker, runFrom, initialState] at h
  | append_singleton l a ih =>
      have hstep : runBreaker cfg now (l ++ [a]) =
          (execute cfg (runBreaker cfg now l) now a).2 := by
        rw [runBreaker, runFrom_append]
        rfl
      rcases hopen : (runBreaker cfg now l).isOpen with _ | _
      · -- previously non-open
        obtain ⟨hfc, l1, hsplit⟩ := ih.1 hopen
        rcases a with _ | _
        · -- success: onSuccess keeps the breaker non-open, failure count zeroed
          have hexec : (execute cfg (runBreaker cfg now l) now Outcome.success).2 =
              onSuccess cfg (runBreaker cfg now l) now := by
            simp [execute, hopen]
          rw [hstep, hexec]
          constructor
          · intro _
            rw [onSuccess_failureCount]
            exact ⟨by omega, l ++ [Outcome.success], by simp⟩
          · intro h
            rw [onSuccess_isOpen_of_closed cfg _ now hopen] at h
            cases h
        · -- failure: onFailure either crosses the threshold or stays below
          have hexec : (execute cfg (runBreaker cfg now l) now Outcome.failure).2 =
              onFailure cfg (runBreaker cfg now l) now := by
            simp [execute, hopen]
          rw [hstep, hexec]
          have hlist : l ++ [Outcome.failure] =
              l1 ++ List.replicate ((runBreaker cfg now l).failureCount + 1)
                Outcome.failure := by
            rw [List.replicate_succ', ← List.append_assoc, ← hsplit]
          by_cases hth : cfg.failureThreshold ≤ (runBreaker cfg now l).failureCount + 1
          · obtain ⟨ho, hl⟩ := onFailure_isOpen_of_threshold cfg _ now hth
            constructor
            · intro h
              rw [ho] at h
              cases h
            · intro _
              have hFeq : (runBreaker cfg now l).failureCount + 1 = cfg.failureThreshold := by
                omega
              rw [hFeq] at hlist
              exact ⟨hl, l1, [], by simpa using hlist⟩
          · obtain ⟨ho, hc⟩ :=
              onFailure_below_threshold cfg (runBreaker cfg now l) now (by omega)
            constructor
            · intro _
              rw [hc]
              exact ⟨by omega, l1, hlist⟩
            · intro h
              rw [ho, hopen] at h
              cases h
      · -- previously open: the call is rejected, nothing changes
        obtain ⟨hl, l1, l2, hsplit⟩ := ih.2 hopen
        have hexec := execute_open_same_now cfg (runBreaker cfg now l) now a hopen hl
        rw [hstep, hexec]
        constructor
        · intro h
          rw [hopen] at h
          cases h
        · intro _
          exact ⟨hl, l1, l2 ++ [a], by rw [hsplit]; simp⟩

/-! ## Claim C1 -/

/-- C1 counterexample: in the open phase with the last failure at
instant 1 and `openDuration = 60000`, a call at instant 60001 satisfies
`now - lastFailureAt = openDuration`, yet it is rejected without
invoking the operation and the breaker stays open — the gate uses a
strict comparison, so the boundary call is not allowed through as the
claim states. -/
theorem c1_boundary_counterexample :
    c1OpenState.isOpen = true
  ∧ c1OpenState.lastFailureTime = some 1
  ∧ (60001 : Int) - (1 : Int) ≥ (defaultConfig.timeout : Int)
  ∧ (execute defaultConfig c1OpenState 60001 Outcome.success).1 = ExecResult.rejected
  ∧ (execute defaultConfig c1OpenState 60001 Outcome.success).2 = c1OpenState := by
  decide

/-- C1 (amended): while the breaker is open, a call with
`now - lastFailureAt ≤ openDuration` — including the exact boundary — is
rejected with a circuit-open error without invoking the operation and
leaves the state untouched; a call on a breaker whose `lastFailureAt`
timestamp is the falsy 0 is likewise rejected at every instant (the
reset guard short-circuits on it); and a call with a truthy (nonzero)
`lastFailureAt` once `now - lastFailureAt > openDuration` (strictly) is
allowed through as a trial, after which a successful trial leaves the
breaker non-open. -/
theorem c1_open_gate (cfg : CircuitBreakerConfig) (s : CircuitBreakerState)
    (now t : Nat) (op : Outcome) (hOpen : s.isOpen = true)
    (hLast : s.lastFailureTime = some t) :
    (((now : Int) - (t : Int) ≤ (cfg.timeout : Int)) →
      execute cfg s now op = (ExecResult.rejected, s))
  ∧ (t = 0 → execute cfg s now op = (ExecResult.rejected, s))
  ∧ (1 ≤ t → ((cfg.timeout : Int) < (now : Int) - (t : Int)) →
      (execute cfg s now op).1 = ExecResult.invoked op
      ∧ (op = Outcome.success → ((execute cfg s now op).2).isOpen = false)) := by
  refine ⟨?_, ?_, ?_⟩
  · intro hle
    have hsar : shouldAttemptReset cfg s now = false := by
      rcases t with _ | n
      · exact shouldAttemptReset_zero cfg s now hLast
      · rw [shouldAttemptReset_pos cfg s now (n + 1) hLast (by omega)]
        exact decide_eq_false (by omega)
    simp [execute, hOpen, hsar]
  · intro ht0
    subst ht0
    have hsar := shouldAttemptReset_zero cfg s now hLast
    simp [execute, hOpen, hsar]
  · intro ht hgt
    have hres : shouldAttemptReset cfg s now = true := by
      rw [shouldAttemptReset_pos cfg s now t hLast ht]
      exact decide_eq_true hgt
    rcases op with _ | _
    · constructor
      · simp [execute, hOpen, hres]
      · intro _
        simp only [execute, hOpen, hres, if_true]
        exact onSuccess_isOpen_of_closed cfg _ now rfl
    · constructor
      · simp [execute, hOpen, hres]
      · intro h
        cases h

/-- C1 witness: the amended gate evaluated on the concrete open states —
rejected at the 60000 ms boundary, allowed through at 70000 ms elapsed,
and rejected forever on the zero-stamped state. -/
theorem c1_open_gate_witness :
    execute defaultConfig c1OpenState 60001 Outcome.success =
      (ExecResult.rejected, c1OpenState)
  ∧ (execute defaultConfig c1OpenState 70001 Outcome.success).1 =
      ExecResult.invoked Outcome.success
  ∧ execute defaultConfig c1OpenStateZero 70000 Outcome.success =
      (ExecResult.rejected, c1OpenStateZero) :=
  ⟨(c1_open_gate defaultConfig c1OpenState 60001 1 Outcome.success (by decide)
      (by decide)).1 (by decide),
   ((c1_open_gate defaultConfig c1OpenState 70001 1 Outcome.success (by decide)
      (by decide)).2.2 (by decide) (by decide)).1,
   (c1_open_gate defaultConfig c1OpenStateZero 70000 0 Outcome.success (by decide)
      (by decide)).2.1 rfl⟩

/-! ## Claim C2 -/

/-- C2 counterexample: with the default configuration
(`failureThreshold = 5`, `successThreshold = 2`), a breaker opened by
five failures at instant 1 admits a trial at 60002 (`60002 - 1 > 60000`)
which succeeds (one trial success on record); the next trial call at
60003 fails, yet the breaker does **not** transition back to open
(`isOpen = false`) and the trial-success counter is **not** reset
(`successCount = 1`): the trial success zeroed the failure counter, and
`onFailure` never touches the success counter. -/
theorem c2_trial_failure_counterexample :
    c1OpenState.isOpen = true
  ∧ (execute defaultConfig c1OpenState 60002 Outcome.success).1 =
      ExecResult.invoked Outcome.success
  ∧ c2AfterTrialSuccess.successCount = 1
  ∧ (execute defaultConfig c2AfterTrialSuccess 60003 Outcome.failure).1 =
      ExecResult.invoked Outcome.failure
  ∧ c2FinalState.isOpen = false
  ∧ c2FinalState.successCount = 1 := by
  decide

/-- C2 (amended): a trial failure occurring before any trial success in
the half-open phase (open flag cleared, trial-success counter zero, the
carried-over failure count already at the threshold) immediately
re-opens the breaker, records `lastFailureAt = now`, and the
trial-success counter stays zero.  After a trial success, however, the
failure counter has been zeroed, so a subsequent trial failure that does
not reach `failureThreshold` afresh leaves the breaker non-open and
leaves the trial-success counter unchanged. -/
theorem c2_half_open_failure (cfg : CircuitBreakerConfig)
    (s s2 : CircuitBreakerState) (now now2 : Nat)
    (h1 : s.isOpen = false) (h2 : cfg.failureThreshold ≤ s.failureCount + 1)
    (h3 : s.successCount = 0)
    (h4 : s2.isOpen = false) (h5 : s2.failureCount + 1 < cfg.failureThreshold) :
    ((execute cfg s now Outcome.failure).2.isOpen = true
     ∧ (execute cfg s now Outcome.failure).2.lastFailureTime = some now
     ∧ (execute cfg s now Outcome.failure).2.successCount = 0)
  ∧ ((execute cfg s2 now2 Outcome.failure).2.isOpen = false
     ∧ (execute cfg s2 now2 Outcome.failure).2.successCount = s2.successCount) := by
  have hexec : (execute cfg s now Outcome.failure).2 = onFailure cfg s now := by
    simp [execute, h1]
  have hexec2 : (execute cfg s2 now2 Outcome.failure).2 = onFailure cfg s2 now2 := by
    simp [execute, h4]
  obtain ⟨ho, hl⟩ := onFailure_isOpen_of_threshold cfg s now h2
  obtain ⟨ho2, _⟩ := onFailure_below_threshold cfg s2 now2 h5
  rw [hexec, hexec2]
  refine ⟨⟨ho, hl, ?_⟩, ⟨by rw [ho2, h4], onFailure_successCount cfg s2 now2⟩⟩
  rw [onFailure_successCount cfg s now, h3]

/-- C2 witness: the amended statement evaluated on the concrete
half-open entry state (five carried failures, no trial success yet) and
on a fresh breaker for the below-threshold part. -/
theorem c2_half_open_failure_witness :
    ((execute defaultConfig
        { isOpen := false, failureCount := 5, successCount := 0,
          lastFailureTime := some 1, lastSuccessTime := none }
        60002 Outcome.failure).2.isOpen = true)
  ∧ ((execute defaultConfig initialState 7 Outcome.failure).2.isOpen = false) :=
  ⟨((c2_half_open_failure defaultConfig
      { isOpen := false, failureCount := 5, successCount := 0,
        lastFailureTime := some 1, lastSuccessTime := none }
      initialState 60002 7 (by decide) (by decide) (by decide) (by decide)
      (by decide)).1).1,
   ((c2_half_open_failure defaultConfig
      { isOpen := false, failureCount := 5, successCount := 0,
        lastFailureTime := some 1, lastSuccessTime := none }
      initialState 60002 7 (by decide) (by decide) (by decide) (by decide)
      (by decide)).2).1⟩

/-! ## Claim C3 -/

/-- C3: in the closed phase with `failureThreshold = F ≥ 1` and all
calls at one instant, the breaker ends up open exactly when the outcome
sequence contains a run of `F` consecutive failures (a single success
resets the consecutive-failure count); in particular `F - 1` failures,
a success, and `F - 1` further failures leave the breaker closed. -/
theorem c3_consecutive_failure_threshold (cfg : CircuitBreakerConfig)
    (now : Nat) (hF : 1 ≤ cfg.failureThreshold) (os : List Outcome) :
    ((runBreaker cfg now os).isOpen = true ↔
      ∃ l1 l2, os = l1 ++ List.replicate cfg.failureThreshold Outcome.failure ++ l2)
  ∧ (runBreaker cfg now
      (List.replicate (cfg.failureThreshold - 1) Outcome.failure ++
        Outcome.success ::
          List.replicate (cfg.failureThreshold - 1) Outcome.failure)).isOpen
      = false := by
  constructor
  · constructor
    · intro h
      exact ((runBreaker_shape cfg now hF os).2 h).2
    · rintro ⟨l1, l2, rfl⟩
      rw [runBreaker, runFrom_append, runFrom_append]
      rcases hopen : (runFrom cfg now initialState l1).isOpen with _ | _
      · have hfc := ((runBreaker_shape cfg now hF l1).1 hopen).1
        obtain ⟨ho, hl⟩ := runFrom_failures_open cfg now cfg.failureThreshold
          (runFrom cfg now initialState l1) hopen hF (by omega)
        rw [runFrom_open_absorb cfg now l2 _ ho hl]
        exact ho
      · have hl := ((runBreaker_shape cfg now hF l1).2 hopen).1
        rw [runFrom_open_absorb cfg now _ _ hopen hl,
          runFrom_open_absorb cfg now l2 _ hopen hl]
        exact hopen
  · rw [runBreaker, runFrom_append]
    obtain ⟨ho1, hc1⟩ := runFrom_failures_closed cfg now (cfg.failureThreshold - 1)
      initialState rfl (by simp [initialState]; omega)
    rw [runFrom_cons]
    have hexec : (execute cfg (runFrom cfg now initialState
        (List.replicate (cfg.failureThreshold - 1) Outcome.failure)) now
        Outcome.success).2 =
        onSuccess cfg (runFrom cfg now initialState
          (List.replicate (cfg.failureThreshold - 1) Outcome.failure)) now := by
      simp [execute, ho1]
    rw [hexec]
    have ho2 := onSuccess_isOpen_of_closed cfg _ now ho1
    have hc2 := onSuccess_failureCount cfg (runFrom cfg now initialState
      (List.replicate (cfg.failureThreshold - 1) Outcome.failure)) now
    obtain ⟨ho3, _⟩ := runFrom_failures_closed cfg now (cfg.failureThreshold - 1)
      (onSuccess cfg (runFrom cfg now initialState
        (List.replicate (cfg.failureThreshold - 1) Outcome.failure)) now)
      ho2 (by rw [hc2]; omega)
    exact ho3

/-- C3 witness: the default configuration (`failureThreshold = 5`) on a
concrete history — four failures, one success, four failures — stays
closed, and the iff instantiated on five straight failures. -/
theorem c3_consecutive_failure_threshold_witness :
    ((runBreaker defaultConfig 0 (List.replicate 5 Outcome.failure)).isOpen = true ↔
      ∃ l1 l2, List.replicate 5 Outcome.failure =
        l1 ++ List.replicate defaultConfig.failureThreshold Outcome.failure ++ l2)
  ∧ (runBreaker defaultConfig 0
      (List.replicate (defaultConfig.failureThreshold - 1) Outcome.failure ++
        Outcome.success ::
          List.replicate (defaultConfig.failureThreshold - 1) Outcome.failure)).isOpen
      = false :=
  c3_consecutive_failure_threshold defaultConfig 0 (by decide)
    (List.replicate 5 Outcome.failure)

/-! ## Claim C9 -/

/-- Every single event preserves `successCount < successThreshold`. -/
theorem applyEvent_successCount_lt (cfg : CircuitBreakerConfig)
    (hS : 0 < cfg.successThreshold) (s : CircuitBreakerState)
    (hs : s.successCount < cfg.successThreshold) (e : BreakerEvent) :
    (applyEvent cfg s e).successCount < cfg.successThreshold := by
  rcases e with ⟨now, op⟩ | _
  · show (execute cfg s now op).2.successCount < cfg.successThreshold
    rcases hopen : s.isOpen with _ | _
    · rcases op with _ | _
      · have : (execute cfg s now Outcome.success).2 = onSuccess cfg s now := by
          simp [execute, hopen]
        rw [this]
        exact onSuccess_successCount_lt cfg hS s now
      · have : (execute cfg s now Outcome.failure).2 = onFailure cfg s now := by
          simp [execute, hopen]
        rw [this, onFailure_successCount]
        exact hs
    · rcases hres : shouldAttemptReset cfg s now with _ | _
      · have : (execute cfg s now op).2 = s := by
          simp [execute, hopen, hres]
        rw [this]
        exact hs
      · rcases op with _ | _
        · have : (execute cfg s now Outcome.success).2 =
              onSuccess cfg { s with isOpen := false, successCount := 0 } now := by
            simp [execute, hopen, hres]
          rw [this]
          exact onSuccess_successCount_lt cfg hS _ now
        · have : (execute cfg s now Outcome.failure).2 =
              onFailure cfg { s with isOpen := false, successCount := 0 } now := by
            simp [execute, hopen, hres]
          rw [this, onFailure_successCount]
          exact hS
  · exact hS

/-- The invariant propagates through any event sequence. -/
theorem foldEvents_successCount_lt (cfg : CircuitBreakerConfig)
    (hS : 0 < cfg.successThreshold) :
    ∀ (evs : List BreakerEvent) (s : CircuitBreakerState),
      s.successCount < cfg.successThreshold →
      (evs.foldl (applyEvent cfg) s).successCount < cfg.successThreshold
  | [], _, hs => hs
  | e :: rest, s, hs =>
      foldEvents_successCount_lt cfg hS rest (applyEvent cfg s e)
        (applyEvent_successCount_lt cfg hS s hs e)

/-- C9: with a positive effective `successThreshold`, in every state a
breaker reaches from construction through any sequence of `execute`
outcomes and `reset()` calls, the success counter observable through
`getState` stays strictly below the threshold — the update that reaches
the threshold zeroes the counter within the same step. -/
theorem c9_success_counter_invariant (cfg : CircuitBreakerConfig)
    (hS : 0 < cfg.successThreshold) (evs : List BreakerEvent) :
    (getState (runEvents cfg evs)).successCount < cfg.successThreshold := by
  show (runEvents cfg evs).successCount < cfg.successThreshold
  exact foldEvents_successCount_lt cfg hS evs initialState hS

/-- C9 witness: the invariant evaluated on a concrete event sequence
against the default configuration (`successThreshold = 2`). -/
theorem c9_success_counter_invariant_witness :
    (getState (runEvents defaultConfig
      [BreakerEvent.exec 0 Outcome.success, BreakerEvent.exec 1 Outcome.success,
       BreakerEvent.exec 2 Outcome.success, BreakerEvent.adminReset,
       BreakerEvent.exec 3 Outcome.failure])).successCount <
      defaultConfig.successThreshold :=
  c9_success_counter_invariant defaultConfig (by decide)
    [BreakerEvent.exec 0 Outcome.success, BreakerEvent.exec 1 Outcome.success,
     BreakerEvent.exec 2 Outcome.success, BreakerEvent.adminReset,
     BreakerEvent.exec 3 Outcome.failure]

/-! ## Claim C4 -/

/-- C4: the dedicated not-found handler does **not** produce a
not-found-kind AppError.  At the unmatched route `GET /missing` it
constructs a `ValidationError` — code `VALIDATION_ERROR`, an error whose
own default status is 400 — and only the HTTP status passed to
`res.status` is 404; the repository's `NotFoundError` class (code
`NOT_FOUND`, default status 404) is left unused.  The handler's name and
doc comment ("404 Not Found handler") and the forced 404 make the spec's
reading the evident intent and the `ValidationError` call a slip. -/
theorem c4_not_found_handler_wrong_kind :
    (notFoundHandler { method := "GET", path := "/missing" }).body.code =
      ErrorCode.VALIDATION_ERROR
  ∧ ErrorCode.VALIDATION_ERROR ≠ ErrorCode.NOT_FOUND
  ∧ ErrorCode.VALIDATION_ERROR ≠ ErrorCode.RESOURCE_NOT_FOUND
  ∧ (notFoundHandler { method := "GET", path := "/missing" }).body.statusCode = 400
  ∧ (mkNotFoundError "Resource not found").statusCode = 404
  ∧ (mkNotFoundError "Resource not found").code = ErrorCode.NOT_FOUND
  ∧ (notFoundHandler { method := "GET", path := "/missing" }).status = 404 := by
  decide

/-! ## Claim C6 -/

/-- C6 counterexample: `internal`-kind errors are also constructed with
`operational = false` (the `InternalServerError` constructor passes the
literal `false` to the base class), so `database` is not the only kind
whose default-constructed error is non-operational. -/
theorem c6_internal_nonoperational_counterexample :
    (constructDefault ErrorKind.internal).isOperational = false
  ∧ ErrorKind.internal ≠ ErrorKind.database := by
  decide

/-- C6 (amended): a default-constructed error is operational for every
kind except `database` (whose constructor defaults the flag to `false`)
and `internal` (whose constructor always passes `false`); those two are
non-operational. -/
theorem c6_operational_defaults (k : ErrorKind) :
    (constructDefault k).isOperational = true ↔
      (k ≠ ErrorKind.database ∧ k ≠ ErrorKind.internal) := by
  cases k <;> decide

/-- C6 witness: the amended statement evaluated at the `validation` and
`database` kinds. -/
theorem c6_operational_defaults_witness :
    ((constructDefault ErrorKind.validation).isOperational = true ↔
      (ErrorKind.validation ≠ ErrorKind.database ∧
       ErrorKind.validation ≠ ErrorKind.internal))
  ∧ ((constructDefault ErrorKind.database).isOperational = true ↔
      (ErrorKind.database ≠ ErrorKind.database ∧
       ErrorKind.database ≠ ErrorKind.internal)) :=
  ⟨c6_operational_defaults ErrorKind.validation,
   c6_operational_defaults ErrorKind.database⟩

/-! ## Helper lemmas about the sanitizer -/

/-- Mapping the single-key overwrite over a list with no matching key is
the identity. -/
theorem redact_map_id {α : Type} (marker : α) (k : String) :
    ∀ (fields : List (String × α)), (fields.any fun p => p.1 == k) = false →
      (fields.map fun p => if p.1 == k then (p.1, marker) else p) = fields
  | [], _ => rfl
  | p :: rest, h => by
      rw [List.any_cons, Bool.or_eq_false_iff] at h
      rw [List.map_cons, if_neg (by simp [h.1]), redact_map_id marker k rest h.2]

/-- One redaction pass is the pointwise single-key overwrite, whether or
not the key is present. -/
theorem redactField_eq_map {α : Type} (marker : α) (k : String)
    (fields : List (String × α)) :
    redactField marker fields k =
      fields.map fun p => if p.1 == k then (p.1, marker) else p := by
  unfold redactField
  split
  · rfl
  · next h =>
      rw [Bool.not_eq_true] at h
      exact (redact_map_id marker k fields h).symm

/-- The whole redaction loop is the pointwise overwrite of exactly the
top-level fields whose name is in `sensitiveFields`. -/
theorem redactTop_eq_map {α : Type} (marker : α)
    (fields : List (String × α)) :
    redactTop marker fields =
      fields.map fun p =>
        if p.1 ∈ sensitiveFields then (p.1, marker) else p := by
  show redactField marker (redactField marker (redactField marker
      (redactField marker (redactField marker fields "password") "token")
      "secret") "apiKey") "api_key" = _
  rw [redactField_eq_map, redactField_eq_map, redactField_eq_map,
    redactField_eq_map, redactField_eq_map, List.map_map, List.map_map,
    List.map_map, List.map_map]
  refine congrArg (fun f => List.map f fields) (funext fun p => ?_)
  obtain ⟨k, v⟩ := p
  by_cases h1 : k = "password"
  · subst h1; rfl
  by_cases h2 : k = "token"
  · subst h2; rfl
  by_cases h3 : k = "secret"
  · subst h3; rfl
  by_cases h4 : k = "apiKey"
  · subst h4; rfl
  by_cases h5 : k = "api_key"
  · subst h5; rfl
  have hmem : k ∉ sensitiveFields := by
    simp [sensitiveFields, h1, h2, h3, h4, h5]
  simp [Function.comp, beq_eq_false_iff_ne.mpr h1, beq_eq_false_iff_ne.mpr h2,
    beq_eq_false_iff_ne.mpr h3, beq_eq_false_iff_ne.mpr h4,
    beq_eq_false_iff_ne.mpr h5, hmem]

/-! ## Claim C5 -/

/-- C5 counterexample: a `password` field nested inside a `user` object
survives sanitization verbatim — the copy is shallow and the field scan
looks only at top-level names — so a `password` present at nesting depth
one is logged in clear text, not replaced by the marker. -/
theorem c5_nested_password_counterexample :
    sanitizeRequestBody c5NestedBody = c5NestedBody
  ∧ ((getField c5NestedBody "user").map (fun u => getField u "password")) =
      some (some (JsonVal.str "hunter2"))
  ∧ "hunter2" ≠ "[REDACTED]" := by
  refine ⟨rfl, rfl, by decide⟩

/-- C5 (amended): redaction is top-level only.  Sanitizing an object
body overwrites exactly those top-level fields whose name is in
`password`/`token`/`secret`/`apiKey`/`api_key` with the marker string;
every top-level `password` field is replaced by the marker, and every
top-level field with a name outside that list keeps its value verbatim
(nested occurrences of sensitive names are not touched, as they sit
inside such kept values). -/
theorem c5_top_level_redaction (fields : List (String × JsonVal)) :
    sanitizeRequestBody (JsonVal.obj fields) =
      JsonVal.obj (fields.map fun p =>
        if p.1 ∈ sensitiveFields then (p.1, JsonVal.str "[REDACTED]") else p)
  ∧ (∀ v : JsonVal, ("password", v) ∈ fields →
      ("password", JsonVal.str "[REDACTED]") ∈
        redactTop (JsonVal.str "[REDACTED]") fields)
  ∧ (∀ (k : String) (v : JsonVal), (k, v) ∈ fields → k ∉ sensitiveFields →
      (k, v) ∈ redactTop (JsonVal.str "[REDACTED]") fields) := by
  refine ⟨congrArg JsonVal.obj (redactTop_eq_map _ fields), ?_, ?_⟩
  · intro v hv
    rw [redactTop_eq_map]
    have := List.mem_map_of_mem
      (fun p : String × JsonVal =>
        if p.1 ∈ sensitiveFields then (p.1, JsonVal.str "[REDACTED]") else p) hv
    simpa [sensitiveFields] using this
  · intro k v hv hk
    rw [redactTop_eq_map]
    have := List.mem_map_of_mem
      (fun p : String × JsonVal =>
        if p.1 ∈ sensitiveFields then (p.1, JsonVal.str "[REDACTED]") else p) hv
    simpa [hk] using this

/-- C5 witness: the amended statement evaluated on a concrete login
body: the top-level `password` is replaced by the marker and the
`username` field survives. -/
theorem c5_top_level_redaction_witness :
    ("password", JsonVal.str "[REDACTED]") ∈
      redactTop (JsonVal.str "[REDACTED]")
        [("password", JsonVal.str "hunter2"), ("username", JsonVal.str "bob")]
  ∧ ("username", JsonVal.str "bob") ∈
      redactTop (JsonVal.str "[REDACTED]")
        [("password", JsonVal.str "hunter2"), ("username", JsonVal.str "bob")] :=
  ⟨(c5_top_level_redaction
      [("password", JsonVal.str "hunter2"), ("username", JsonVal.str "bob")]).2.1
      (JsonVal.str "hunter2") (List.mem_cons_self _ _),
   (c5_top_level_redaction
      [("password", JsonVal.str "hunter2"), ("username", JsonVal.str "bob")]).2.2
      "username" (JsonVal.str "bob")
      (List.mem_cons_of_mem _ (List.mem_cons_self _ _)) (by decide)⟩

/-! ## Claim C10 -/

/-- C10: sanitization never mutates the request body it is given.  In
the heap view, every object address that existed before the call holds
exactly the same fields afterwards — the redacted copy lives at a fresh
address — so every later reader of the request body sees the original
values; and a body that is `null`, `undefined`, or not an object
reference comes back entirely unchanged, store untouched. -/
theorem c10_sanitize_no_mutation (h : Heap) (body : HVal) :
    (∀ a : Nat, a < h.objs.length →
      ((sanitizeRequestBodyH h body).1).objs[a]? = h.objs[a]?)
  ∧ ((∀ a : Nat, body ≠ HVal.ref a) →
      sanitizeRequestBodyH h body = (h, body)) := by
  constructor
  · intro a ha
    rcases body with _ | _ | _ | _ | _ | r
    · rfl
    · rfl
    · rfl
    · rfl
    · rfl
    · rcases hr : h.objs[r]? with _ | fields
      · simp [sanitizeRequestBodyH, hr]
      · simp only [sanitizeRequestBodyH, hr]
        exact List.getElem?_append_left ha
  · intro hnr
    rcases body with _ | _ | _ | _ | _ | r
    · rfl
    · rfl
    · rfl
    · rfl
    · rfl
    · exact absurd rfl (hnr r)

/-- C10 witness: a store holding one login body; after sanitization the
original body at address 0 still holds its clear-text password, and a
primitive body passes through unchanged. -/
theorem c10_sanitize_no_mutation_witness :
    ((sanitizeRequestBodyH { objs := [[("password", HVal.str "hunter2")]] }
        (HVal.ref 0)).1).objs[0]? =
      some [("password", HVal.str "hunter2")]
  ∧ sanitizeRequestBodyH { objs := [[("password", HVal.str "hunter2")]] }
      HVal.jnull =
      ({ objs := [[("password", HVal.str "hunter2")]] }, HVal.jnull) :=
  ⟨((c10_sanitize_no_mutation { objs := [[("password", HVal.str "hunter2")]] }
      (HVal.ref 0)).1 0 (by decide)).trans rfl,
   (c10_sanitize_no_mutation { objs := [[("password", HVal.str "hunter2")]] }
      HVal.jnull).2 (fun a h => by cases h)⟩

/-! ## Claim C8 -/

/-- C8 counterexample: only the general rule carries the health-check
`skip`.  Six requests to `/health` within one window are **counted** by
the authentication rule (its counter reaches 6) and the sixth is
**rejected** (`max = 5`), while the same burst leaves the general rule's
counter untouched — so the bypass does not hold for all three rules as
claimed. -/
theorem c8_health_bypass_counterexample :
    (runRateLimit authRateLimit 0 (List.replicate 6 "/health")).2 = false
  ∧ (runRateLimit authRateLimit 0 (List.replicate 6 "/health")).1 =
      some { windowStart := 0, count := 6 }
  ∧ (runRateLimit apiRateLimit 0 (List.replicate 6 "/health")).1 = none := by
  decide

/-- C8 (amended): the health-check bypass holds for the general traffic
rule only — a `/health` request is neither counted against nor rejected
by `apiRateLimit` — while the authentication and expensive-operation
rules have no `skip` and treat `/health` exactly like every other path
(in particular they count it from the first request). -/
theorem c8_health_bypass_api_only (now : Nat) (ctr : Option RateLimitCounter) :
    rateLimitStep apiRateLimit "/health" now ctr = (ctr, true)
  ∧ (∀ p q : String,
      rateLimitStep authRateLimit p now ctr = rateLimitStep authRateLimit q now ctr)
  ∧ (∀ p q : String,
      rateLimitStep aiRateLimit p now ctr = rateLimitStep aiRateLimit q now ctr)
  ∧ rateLimitStep authRateLimit "/health" now none =
      (some { windowStart := now, count := 1 }, true)
  ∧ rateLimitStep aiRateLimit "/health" now none =
      (some { windowStart := now, count := 1 }, true) :=
  ⟨rfl, fun _ _ => rfl, fun _ _ => rfl, rfl, rfl⟩

/-! ## Claim C7 -/

/-- C7 counterexample: an audited call by an authenticated caller whose
id is the empty string is recorded with the anonymous marker — the
middleware computes `user?.id || 'anonymous'`, and a falsy (empty) id
falls through to `'anonymous'` even though the caller's id is present. -/
theorem c7_empty_id_counterexample :
    (auditLogMiddleware "USER_LOGIN" (some "") "POST" "/login" "203.0.113.7"
      "agent" (HandlerOutcome.ok 200)).map (fun r => r.userId) = ["anonymous"]
  ∧ "anonymous" ≠ "" := by
  decide

/-- C7 (amended): every audited call emits exactly one audit record at
response finalization, identically whether the handler returned or
threw (only the final status code matters); the record's `result` is
`success` exactly when the final status lies in 200–399; and its
`actorId` is the authenticated caller's id when one is present and
non-empty, else the anonymous marker (a present but empty — falsy — id
is treated as absent). -/
theorem c7_audit_record (action : String) (user : Option String)
    (method path ip userAgent : String) (outcome : HandlerOutcome) :
    (auditLogMiddleware action user method path ip userAgent outcome).length = 1
  ∧ auditLogMiddleware action user method path ip userAgent
      (HandlerOutcome.ok (finalStatusCode outcome)) =
    auditLogMiddleware action user method path ip userAgent
      (HandlerOutcome.threw (finalStatusCode outcome))
  ∧ (∀ r, r ∈ auditLogMiddleware action user method path ip userAgent outcome →
      (r.result = "success" ↔
        (200 ≤ finalStatusCode outcome ∧ finalStatusCode outcome < 400))
      ∧ r.statusCode = finalStatusCode outcome
      ∧ (∀ id : String, user = some id → id ≠ "" → r.userId = id)
      ∧ (user = none → r.userId = "anonymous")
      ∧ (user = some "" → r.userId = "anonymous")) := by
  refine ⟨rfl, rfl, ?_⟩
  intro r hr
  simp only [auditLogMiddleware, auditOnEnd, List.nil_append,
    List.mem_singleton] at hr
  subst hr
  refine ⟨?_, rfl, ?_, ?_, ?_⟩
  · simp only [auditOutcomeResult]
    split
    · next hc => exact iff_of_true rfl hc
    · next hc => exact iff_of_false (by decide) hc
  · intro id hu hne
    subst hu
    simp [auditUserId, hne]
  · intro hu
    subst hu
    rfl
  · intro hu
    subst hu
    rfl

/-- C7 witness: a concrete audited call that threw and was answered with
status 500 — one record, marked failure, attributed to the caller. -/
theorem c7_audit_record_witness :
    (auditLogMiddleware "ACCOUNT_DELETE" (some "alice") "DELETE" "/users/7"
      "203.0.113.7" "agent" (HandlerOutcome.threw 500)).length = 1
  ∧ ({ action := "ACCOUNT_DELETE", userId := "alice", method := "DELETE",
       path := "/users/7", ip := "203.0.113.7", userAgent := "agent",
       statusCode := 500, result := "failure" } : AuditRecord).userId = "alice" :=
  ⟨(c7_audit_record "ACCOUNT_DELETE" (some "alice") "DELETE" "/users/7"
      "203.0.113.7" "agent" (HandlerOutcome.threw 500)).1,
   ((c7_audit_record "ACCOUNT_DELETE" (some "alice") "DELETE" "/users/7"
      "203.0.113.7" "agent" (HandlerOutcome.threw 500)).2.2
      { action := "ACCOUNT_DELETE", userId := "alice", method := "DELETE",
        path := "/users/7", ip := "203.0.113.7", userAgent := "agent",
        statusCode := 500, result := "failure" }
      (List.mem_singleton.mpr (by decide))).2.2.1 "alice" rfl (by decide)⟩

end SlavkoOS
